import Mathlib

/-
  Verification development for the tbot1 repository.

  The repository has two source files:
    * app.py          — indicator pipeline and signal evaluation (apply_strategy,
                        the MIN_BARS pipeline loop);
    * kite_trader.py  — broker routines (load_instruments, get_nifty_spot,
                        get_current_expiry, get_atm_option_symbol, place_entry,
                        exit_position, get_open_positions, auto_exit).

  Shallow embedding conventions:
    * Indicator values live in `Option ℚ`; `none` models a pandas NaN.
      Every pandas comparison involving a NaN is False, which the `o*`
      comparison helpers reproduce.
    * Broker interaction is modelled by an environment record `KiteEnv`
      (the broker's answers) plus an explicit trace of `BrokerCall`s each
      function emits, and explicit threading of the `_INSTRUMENTS` cache.
    * Python `round` (banker's rounding, half to even) is `pyRound`.
    * Fallible code returns `Except String _` (the message mirrors the
      Python exception) or `Option _`.
-/

namespace Tbot

/-! ## Signal evaluation (app.py, apply_strategy)

One row of the indicator table, restricted to the columns `apply_strategy`
reads.  Each field is `Option ℚ`: `none` is a NaN produced by an indicator
window that exceeds the available history. -/

structure SignalInput where
  Close   : Option ℚ
  BB60    : Option ℚ
  RSI20   : Option ℚ
  WILLR28 : Option ℚ
  pDI6    : Option ℚ
  mDI6    : Option ℚ
  pDI20   : Option ℚ
  mDI20   : Option ℚ
  MA8     : Option ℚ
  deriving DecidableEq

/-- pandas `series <= c`: False on NaN. -/
def oLE (x : Option ℚ) (c : ℚ) : Bool :=
  match x with
  | some v => decide (v ≤ c)
  | none => false

/-- pandas `series >= c`: False on NaN. -/
def oGE (x : Option ℚ) (c : ℚ) : Bool :=
  match x with
  | some v => decide (c ≤ v)
  | none => false

/-- pandas `series.between(lo, hi)` (inclusive on both ends): False on NaN. -/
def oBetween (x : Option ℚ) (lo hi : ℚ) : Bool :=
  match x with
  | some v => decide (lo ≤ v ∧ v ≤ hi)
  | none => false

/-- pandas `series < c`: False on NaN. -/
def oLTc (x : Option ℚ) (c : ℚ) : Bool :=
  match x with
  | some v => decide (v < c)
  | none => false

/-- pandas elementwise `s < t`: False if either side is NaN. -/
def oLT (x y : Option ℚ) : Bool :=
  match x, y with
  | some a, some b => decide (a < b)
  | _, _ => false

/-- pandas elementwise `s > t`: False if either side is NaN. -/
def oGT (x y : Option ℚ) : Bool :=
  match x, y with
  | some a, some b => decide (b < a)
  | _, _ => false

/-- pandas elementwise subtraction: NaN propagates. -/
def oSub (x y : Option ℚ) : Option ℚ :=
  match x, y with
  | some a, some b => some (a - b)
  | _, _ => none

/-- pandas `.abs()`: NaN propagates.  The absolute value is spelled with an
`if` so that it evaluates by kernel reduction on concrete rationals. -/
def oAbs (x : Option ℚ) : Option ℚ :=
  match x with
  | some a => some (if a < 0 then -a else a)
  | none => none

theorem oAbs_some (a : ℚ) : oAbs (some a) = some |a| := by
  unfold oAbs
  by_cases h : a < 0
  · simp [h, abs_of_neg h]
  · simp [h, abs_of_nonneg (le_of_not_lt h)]

/-- app.py line 96-102:
`(BB60 <= 35) & RSI20.between(65,100) & WILLR28.between(-20,0) &
 (+DI6 >= 40) & (-DI6 <= 12) & (+DI20 >= 35) & (-DI20 <= 15)`. -/
def CALL_ENTRY (r : SignalInput) : Bool :=
  oLE r.BB60 35 &&
  oBetween r.RSI20 65 100 &&
  oBetween r.WILLR28 (-20) 0 &&
  oGE r.pDI6 40 && oLE r.mDI6 12 &&
  oGE r.pDI20 35 && oLE r.mDI20 15

/-- app.py line 104-110:
`(BB60 <= 35) & RSI20.between(1,40) & WILLR28.between(-100,-80) &
 (-DI6 >= 35) & (+DI6 <= 15) & (-DI20 >= 30) & (+DI20 <= 15)`. -/
def PUT_ENTRY (r : SignalInput) : Bool :=
  oLE r.BB60 35 &&
  oBetween r.RSI20 1 40 &&
  oBetween r.WILLR28 (-100) (-80) &&
  oGE r.mDI6 35 && oLE r.pDI6 15 &&
  oGE r.mDI20 30 && oLE r.pDI20 15

/-- app.py line 112: `di_diff = (df["+DI20"] - df["-DI20"]).abs()`. -/
def di_diff (r : SignalInput) : Option ℚ :=
  oAbs (oSub r.pDI20 r.mDI20)

/-- app.py line 114: `(di_diff < 10) | (Close < MA8)`. -/
def CALL_EXIT (r : SignalInput) : Bool :=
  oLTc (di_diff r) 10 || oLT r.Close r.MA8

/-- app.py line 115: `(di_diff < 10) | (Close > MA8)`. -/
def PUT_EXIT (r : SignalInput) : Bool :=
  oLTc (di_diff r) 10 || oGT r.Close r.MA8

/-! ## Multi-symbol pipeline (app.py, module level)

`fetch_data` (app.py lines 31-52) returns `None` for an empty download and
otherwise a cleaned bar table; we model its result as `Option (List Bar)`.
The pipeline loop (lines 122-129) keeps a symbol's frame only when the fetch
succeeded and `len(raw) >= MIN_BARS`; line 135 concatenates the kept frames,
each row tagged with its stock (line 128). -/

/-- app.py line 16: `MIN_BARS = 160`. -/
def MIN_BARS : Nat := 160

/-- One cleaned price bar as produced by `fetch_data`. -/
structure Bar where
  Datetime : Nat
  Open     : ℚ
  High     : ℚ
  Low      : ℚ
  Close    : ℚ
  Volume   : ℚ
  deriving DecidableEq

/-- app.py lines 122-129: the per-symbol loop.  A symbol contributes its frame
exactly when `fetch` returned data of length at least `MIN_BARS`. -/
def pipelineFrames (fetch : String → Option (List Bar)) (stocks : List String) :
    List (String × List Bar) :=
  stocks.filterMap fun s =>
    match fetch s with
    | some raw => if MIN_BARS ≤ raw.length then some (s, raw) else none
    | none => none

/-- app.py lines 128 and 135: rows of the concatenated table, tagged with the
stock they came from. -/
def aggregatedRows (fetch : String → Option (List Bar)) (stocks : List String) :
    List (String × Bar) :=
  (pipelineFrames fetch stocks).flatMap fun f => f.2.map fun b => (f.1, b)

/-! ## Broker routines (kite_trader.py)

The broker's answers are collected in a `KiteEnv`; every routine additionally
returns the list of `kite.*` API calls it performed, and the `_INSTRUMENTS`
module-level cache is threaded explicitly as an `Option (List Instrument)`. -/

/-- One NFO instrument record, restricted to the keys the code reads. -/
structure Instrument where
  name            : String
  expiry          : Nat
  strike          : ℤ
  instrument_type : String
  tradingsymbol   : String
  deriving DecidableEq

/-- One net position record, restricted to the keys the code reads. -/
structure Position where
  tradingsymbol : String
  quantity      : ℤ
  deriving DecidableEq

/-- The broker's answers and the configuration the routines read. -/
structure KiteEnv where
  spot           : ℚ
  nfoInstruments : List Instrument
  netPositions   : List Position
  autoTrade      : Bool
  orderQty       : ℤ
  nextOrderId    : Nat

/-- A `kite.*` API call, as observed on the wire. -/
inductive BrokerCall
  | ltp
  | instruments
  | placeOrder (transaction_type : String) (tradingsymbol : String) (quantity : ℤ)
  | positions
  deriving DecidableEq

/-- Is this call an order placement (`kite.place_order`)? -/
def isOrderCall : BrokerCall → Bool
  | BrokerCall.placeOrder _ _ _ => true
  | _ => false

/-- kite_trader.py lines 26-30: return the cached instrument list, fetching it
from the broker only when the cache is cold. -/
def load_instruments (env : KiteEnv) (cache : Option (List Instrument)) :
    List Instrument × Option (List Instrument) × List BrokerCall :=
  match cache with
  | some ins => (ins, some ins, [])
  | none => (env.nfoInstruments, some env.nfoInstruments, [BrokerCall.instruments])

/-- kite_trader.py lines 36-38: spot price via `kite.ltp`. -/
def get_nifty_spot (env : KiteEnv) : ℚ × List BrokerCall :=
  (env.spot, [BrokerCall.ltp])

/-- Python `sorted` on a list of (expiry) keys, modelled as insertion sort. -/
def pySorted (l : List Nat) : List Nat :=
  List.insertionSort (· ≤ ·) l

/-- kite_trader.py line 46-48: `sorted(list({i["expiry"] for i in instruments
if i["name"] == "NIFTY"}))`. -/
def niftyExpiries (ins : List Instrument) : List Nat :=
  pySorted ((ins.filterMap fun i =>
    if i.name = "NIFTY" then some i.expiry else none).dedup)

/-- kite_trader.py lines 44-49: first element of the sorted expiry set
(`expiries[0]`); `none` models the `IndexError` raised on an empty list. -/
def get_current_expiry (env : KiteEnv) (cache : Option (List Instrument)) :
    Option Nat × Option (List Instrument) × List BrokerCall :=
  let r := load_instruments env cache
  ((niftyExpiries r.1).head?, r.2.1, r.2.2)

/-- Python built-in `round` to the nearest integer: round half to even
(banker's rounding). -/
def pyRound (q : ℚ) : ℤ :=
  if q - (⌊q⌋ : ℚ) < 1 / 2 then ⌊q⌋
  else if 1 / 2 < q - (⌊q⌋ : ℚ) then ⌊q⌋ + 1
  else if ⌊q⌋ % 2 = 0 then ⌊q⌋ else ⌊q⌋ + 1

/-- kite_trader.py line 60: `strike = round(spot / 50) * 50`. -/
def atm_strike (spot : ℚ) : ℤ :=
  pyRound (spot / 50) * 50

/-- kite_trader.py line 70: the option type the lookup compares against. -/
def optionType (side : String) : String :=
  if side = "CALL" then "CE" else "PE"

/-- kite_trader.py lines 66-71: the match condition of the lookup loop. -/
def matchesATM (expiry : Nat) (strike : ℤ) (side : String) (i : Instrument) : Bool :=
  i.name == "NIFTY" && i.expiry == expiry && i.strike == strike &&
    i.instrument_type == optionType side

/-- kite_trader.py lines 55-74: resolve the ATM option symbol.  Returns the
first matching instrument's trading symbol, or the error the code raises;
also returns the updated cache and the trace of broker calls made. -/
def get_atm_option_symbol (env : KiteEnv) (cache : Option (List Instrument)) (side : String) :
    Except String String × Option (List Instrument) × List BrokerCall :=
  let spotR := get_nifty_spot env
  let strike := atm_strike spotR.1
  let eR := get_current_expiry env cache
  match eR.1 with
  | none => (Except.error "IndexError", eR.2.1, spotR.2 ++ eR.2.2)
  | some expiry =>
    let iR := load_instruments env eR.2.1
    match iR.1.find? (matchesATM expiry strike side) with
    | some i => (Except.ok i.tradingsymbol, iR.2.1, spotR.2 ++ eR.2.2 ++ iR.2.2)
    | none => (Except.error "Option symbol not found", iR.2.1, spotR.2 ++ eR.2.2 ++ iR.2.2)

/-- The dictionary `place_entry` returns. -/
structure OrderResult where
  status   : String
  symbol   : String
  order_id : Option Nat
  deriving DecidableEq

/-- kite_trader.py lines 80-98: resolve the symbol first (broker calls happen
here in every mode), then either return the paper result or place a live
market buy. -/
def place_entry (env : KiteEnv) (cache : Option (List Instrument)) (side : String) :
    Except String OrderResult × Option (List Instrument) × List BrokerCall :=
  let r := get_atm_option_symbol env cache side
  match r.1 with
  | Except.error e => (Except.error e, r.2.1, r.2.2)
  | Except.ok symbol =>
    if !env.autoTrade then
      (Except.ok ⟨"paper", symbol, none⟩, r.2.1, r.2.2)
    else
      (Except.ok ⟨"live", symbol, some env.nextOrderId⟩, r.2.1,
        r.2.2 ++ [BrokerCall.placeOrder "BUY" symbol env.orderQty])

/-- kite_trader.py lines 104-119: paper mode only logs; live mode places a
market sell for the given quantity. -/
def exit_position (env : KiteEnv) (tradingsymbol : String) (qty : ℤ) : List BrokerCall :=
  if !env.autoTrade then []
  else [BrokerCall.placeOrder "SELL" tradingsymbol qty]

/-- kite_trader.py lines 125-127: net positions with non-zero quantity. -/
def get_open_positions (env : KiteEnv) : List Position × List BrokerCall :=
  (env.netPositions.filter fun p => p.quantity != 0, [BrokerCall.positions])

/-- kite_trader.py lines 133-139: on a true signal, exit every open position
with `abs(quantity)`.  The first component records the `exit_position`
invocations (symbol, absolute quantity); the second is the broker-call
trace. -/
def auto_exit (env : KiteEnv) (exit_signal : Bool) : List (String × ℤ) × List BrokerCall :=
  if !exit_signal then ([], [])
  else
    let r := get_open_positions env
    (r.1.map fun p => (p.tradingsymbol, (p.quantity.natAbs : ℤ)),
     r.2 ++ r.1.flatMap fun p => exit_position env p.tradingsymbol (p.quantity.natAbs : ℤ))

/-! ## Concrete sample data -/

/-- A single cleaned bar with all fields zero. -/
def barW : Bar := ⟨0, 0, 0, 0, 0, 0⟩

/-- A fetch collaborator that answers symbol `"A"` with 160 bars and every
other symbol with a failed download. -/
def fetchW : String → Option (List Bar) :=
  fun s => if s = "A" then some (List.replicate 160 barW) else none

/-- A broker environment with auto-trade off (paper mode) and one matching
NIFTY contract. -/
def envPaper : KiteEnv :=
  { spot := 10523
    nfoInstruments := [⟨"NIFTY", 5, 10500, "CE", "NIFTY10500CE"⟩]
    netPositions := []
    autoTrade := false
    orderQty := 50
    nextOrderId := 1 }

/-- A broker environment holding two open positions on different symbols,
with auto-trade on. -/
def envTwo : KiteEnv :=
  { spot := 10000
    nfoInstruments := []
    netPositions := [⟨"AAA", 50⟩, ⟨"BBB", -25⟩]
    autoTrade := true
    orderQty := 50
    nextOrderId := 7 }

/-- A broker environment whose universe has no NIFTY contract at the resolved
strike, but does have a BANKNIFTY contract matching the resolved
(expiry, strike, type) triple. -/
def envTriple : KiteEnv :=
  { spot := 10523
    nfoInstruments := [⟨"NIFTY", 5, 10000, "CE", "NIFTY10000CE"⟩,
                       ⟨"BANKNIFTY", 5, 10500, "CE", "BANKNIFTY10500CE"⟩]
    netPositions := []
    autoTrade := false
    orderQty := 50
    nextOrderId := 1 }

/-! ## Helper lemmas -/

theorem di_diff_eq (c ma bb rsi wr p6 m6 : Option ℚ) (p q : ℚ) :
    di_diff ⟨c, bb, rsi, wr, p6, m6, some p, some q, ma⟩ = some |p - q| := by
  simp [di_diff, oSub, oAbs_some]

theorem pySorted_mem (a : Nat) (l : List Nat) : a ∈ pySorted l ↔ a ∈ l := by
  unfold pySorted
  exact List.mem_insertionSort _

theorem pySorted_head_min (l : List Nat) (e : Nat) (h : (pySorted l).head? = some e) :
    e ∈ l ∧ ∀ a ∈ l, e ≤ a := by
  rcases hs : pySorted l with _ | ⟨x, t⟩
  · rw [hs] at h
    simp at h
  · rw [hs] at h
    simp only [List.head?_cons, Option.some.injEq] at h
    have hsort : List.Sorted (· ≤ ·) (pySorted l) := List.sorted_insertionSort _ l
    rw [hs] at hsort
    have hrel := List.rel_of_sorted_cons hsort
    rw [← h]
    constructor
    · have he : x ∈ pySorted l := by
        rw [hs]
        exact List.mem_cons_self x t
      exact (pySorted_mem x l).mp he
    · intro a ha
      have ha' : a ∈ pySorted l := (pySorted_mem a l).mpr ha
      rw [hs] at ha'
      rcases List.mem_cons.mp ha' with hax | hmem
      · exact le_of_eq hax.symm
      · exact hrel a hmem

theorem pyRound_of_bounds_low (q : ℚ) (z : ℤ) (h1 : (z : ℚ) ≤ q)
    (h2 : q < (z : ℚ) + 1 / 2) : pyRound q = z := by
  have hf : ⌊q⌋ = z := Int.floor_eq_iff.mpr ⟨h1, by linarith⟩
  unfold pyRound
  rw [hf, if_pos (by linarith)]

theorem pyRound_half_add (z : ℤ) :
    pyRound ((z : ℚ) + 1 / 2) = if z % 2 = 0 then z else z + 1 := by
  have hf : ⌊(z : ℚ) + 1 / 2⌋ = z :=
    Int.floor_eq_iff.mpr ⟨by linarith, by linarith⟩
  unfold pyRound
  rw [hf]
  have heq : (z : ℚ) + 1 / 2 - (z : ℚ) = 1 / 2 := by ring
  rw [heq]
  norm_num

theorem pyRound_nearest (q : ℚ) (z : ℤ) : |q - (pyRound q : ℚ)| ≤ |q - (z : ℚ)| := by
  have h1 : (⌊q⌋ : ℚ) ≤ q := Int.floor_le q
  have h2 : q < ⌊q⌋ + 1 := Int.lt_floor_add_one q
  have hz : (z : ℚ) ≤ (⌊q⌋ : ℚ) ∨ (⌊q⌋ : ℚ) + 1 ≤ (z : ℚ) := by
    rcases le_or_lt z ⌊q⌋ with h | h
    · exact Or.inl (by exact_mod_cast h)
    · right
      have := Int.add_one_le_iff.mpr h
      exact_mod_cast this
  unfold pyRound
  by_cases hc1 : q - (⌊q⌋ : ℚ) < 1 / 2
  · rw [if_pos hc1]
    rcases hz with h | h
    · rw [abs_of_nonneg (by linarith), abs_of_nonneg (by linarith)]
      linarith
    · rw [abs_of_nonneg (by linarith), abs_of_nonpos (by linarith)]
      linarith
  · by_cases hc2 : 1 / 2 < q - (⌊q⌋ : ℚ)
    · rw [if_neg hc1, if_pos hc2]
      push_cast
      rcases hz with h | h
      · rw [abs_of_nonpos (by linarith), abs_of_nonneg (by linarith)]
        linarith
      · rw [abs_of_nonpos (by linarith), abs_of_nonpos (by linarith)]
        linarith
    · have heq : q - (⌊q⌋ : ℚ) = 1 / 2 := le_antisymm (not_lt.mp hc2) (not_lt.mp hc1)
      rw [if_neg hc1, if_neg hc2]
      by_cases hpar : ⌊q⌋ % 2 = 0
      · rw [if_pos hpar]
        rcases hz with h | h
        · rw [abs_of_nonneg (by linarith), abs_of_nonneg (by linarith)]
          linarith
        · rw [abs_of_nonneg (by linarith), abs_of_nonpos (by linarith)]
          linarith
      · rw [if_neg hpar]
        push_cast
        rcases hz with h | h
        · rw [abs_of_nonpos (by linarith), abs_of_nonneg (by linarith)]
          linarith
        · rw [abs_of_nonpos (by linarith), abs_of_nonpos (by linarith)]
          linarith

theorem atm_strike_10523 : atm_strike 10523 = 10500 := by
  have h : pyRound ((10523 : ℚ) / 50) = 210 :=
    pyRound_of_bounds_low _ 210 (by norm_num) (by norm_num)
  unfold atm_strike
  rw [h]
  decide

theorem load_instruments_cache (env : KiteEnv) (cache : Option (List Instrument)) :
    (load_instruments env cache).2.1 = some (load_instruments env cache).1 := by
  cases cache <;> rfl

theorem load_instruments_trace (env : KiteEnv) (cache : Option (List Instrument)) :
    (load_instruments env cache).2.2 = [] ∨
    (load_instruments env cache).2.2 = [BrokerCall.instruments] := by
  cases cache
  · exact Or.inr rfl
  · exact Or.inl rfl

theorem matchesATM_eq_true (e : Nat) (s : ℤ) (side : String) (i : Instrument) :
    matchesATM e s side i = true ↔
      (i.name = "NIFTY" ∧ i.expiry = e ∧ i.strike = s ∧
       i.instrument_type = optionType side) := by
  simp [matchesATM, Bool.and_eq_true, beq_iff_eq, and_assoc]

theorem get_atm_unfold (env : KiteEnv) (cache : Option (List Instrument)) (side : String) :
    get_atm_option_symbol env cache side =
      match (niftyExpiries (load_instruments env cache).1).head? with
      | none => (Except.error "IndexError", (load_instruments env cache).2.1,
          BrokerCall.ltp :: (load_instruments env cache).2.2)
      | some expiry =>
        match (load_instruments env cache).1.find?
            (matchesATM expiry (atm_strike env.spot) side) with
        | some i => (Except.ok i.tradingsymbol, some (load_instruments env cache).1,
            BrokerCall.ltp :: (load_instruments env cache).2.2)
        | none => (Except.error "Option symbol not found", some (load_instruments env cache).1,
            BrokerCall.ltp :: (load_instruments env cache).2.2) := by
  cases cache with
  | none =>
    simp only [get_atm_option_symbol, get_current_expiry, get_nifty_spot, load_instruments]
    cases (niftyExpiries env.nfoInstruments).head? with
    | none => rfl
    | some e =>
      cases env.nfoInstruments.find? (matchesATM e (atm_strike env.spot) side) <;> rfl
  | some ins =>
    simp only [get_atm_option_symbol, get_current_expiry, get_nifty_spot, load_instruments]
    cases (niftyExpiries ins).head? with
    | none => rfl
    | some e =>
      cases ins.find? (matchesATM e (atm_strike env.spot) side) <;> rfl

theorem get_atm_trace (env : KiteEnv) (cache : Option (List Instrument)) (side : String) :
    (get_atm_option_symbol env cache side).2.2 =
      BrokerCall.ltp :: (load_instruments env cache).2.2 := by
  rw [get_atm_unfold]
  cases hE : (niftyExpiries (load_instruments env cache).1).head? with
  | none => rfl
  | some e =>
    cases hf : (load_instruments env cache).1.find? (matchesATM e (atm_strike env.spot) side) with
    | none => simp [hf]
    | some i => simp [hf]

theorem get_atm_error_iff (env : KiteEnv) (cache : Option (List Instrument)) (side : String)
    (e : Nat) (hE : (niftyExpiries (load_instruments env cache).1).head? = some e) :
    ((get_atm_option_symbol env cache side).1 = Except.error "Option symbol not found" ↔
      ∀ i ∈ (load_instruments env cache).1,
        ¬(i.name = "NIFTY" ∧ i.expiry = e ∧ i.strike = atm_strike env.spot ∧
          i.instrument_type = optionType side)) := by
  rw [get_atm_unfold, hE]
  cases h2 : (load_instruments env cache).1.find? (matchesATM e (atm_strike env.spot) side) with
  | none =>
    simp only [h2]
    refine iff_of_true (by trivial) ?_
    intro i hi hcon
    have hfalse := List.find?_eq_none.mp h2 i hi
    rw [(matchesATM_eq_true e (atm_strike env.spot) side i).mpr hcon] at hfalse
    exact hfalse rfl
  | some i =>
    simp only [h2]
    refine iff_of_false (by simp) ?_
    intro hall
    exact hall i (List.mem_of_find?_eq_some h2)
      ((matchesATM_eq_true e (atm_strike env.spot) side i).mp (List.find?_some h2))

theorem niftyExpiries_head (ins : List Instrument) (e : Nat)
    (h : (niftyExpiries ins).head? = some e) :
    (∃ i ∈ ins, i.name = "NIFTY" ∧ i.expiry = e) ∧
    (∀ i ∈ ins, i.name = "NIFTY" → e ≤ i.expiry) := by
  have h' := h
  unfold niftyExpiries at h'
  have hm := pySorted_head_min
    ((ins.filterMap fun i => if i.name = "NIFTY" then some i.expiry else none).dedup) e h'
  have hmem : ∀ a : Nat,
      (a ∈ (ins.filterMap fun i =>
        if i.name = "NIFTY" then some i.expiry else none).dedup ↔
       ∃ i ∈ ins, i.name = "NIFTY" ∧ i.expiry = a) := by
    intro a
    rw [List.mem_dedup, List.mem_filterMap]
    constructor
    · rintro ⟨i, hi, hv⟩
      by_cases hn : i.name = "NIFTY"
      · rw [if_pos hn] at hv
        exact ⟨i, hi, hn, by injection hv⟩
      · rw [if_neg hn] at hv
        cases hv
    · rintro ⟨i, hi, hn, he⟩
      exact ⟨i, hi, by rw [if_pos hn, he]⟩
  constructor
  · exact (hmem e).mp hm.1
  · intro i hi hn
    exact hm.2 _ ((hmem i.expiry).mpr ⟨i, hi, hn, rfl⟩)

theorem place_entry_paper_trace (env : KiteEnv) (cache : Option (List Instrument))
    (side : String) (h : env.autoTrade = false) :
    (place_entry env cache side).2.2 = (get_atm_option_symbol env cache side).2.2 := by
  unfold place_entry
  cases hr : (get_atm_option_symbol env cache side).1 with
  | error e => simp [hr]
  | ok s => simp [hr, h]

/-! ## Claim theorems -/

/-- Claim C1: for every row with all indicator inputs defined, `CALL_ENTRY`
holds iff BB60 ≤ 35, RSI20 ∈ [65,100], WILLR28 ∈ [−20,0], +DI6 ≥ 40,
−DI6 ≤ 12, +DI20 ≥ 35 and −DI20 ≤ 15, and `PUT_ENTRY` holds iff BB60 ≤ 35,
RSI20 ∈ [1,40], WILLR28 ∈ [−100,−80], −DI6 ≥ 35, +DI6 ≤ 15, −DI20 ≥ 30 and
+DI20 ≤ 15, all boundary comparisons inclusive. -/
theorem C1_entry_threshold_rules (c ma : Option ℚ) (bb rsi wr p6 m6 p20 m20 : ℚ) :
    (CALL_ENTRY ⟨c, some bb, some rsi, some wr, some p6, some m6, some p20, some m20, ma⟩ = true ↔
      (bb ≤ 35 ∧ (65 ≤ rsi ∧ rsi ≤ 100) ∧ (-20 ≤ wr ∧ wr ≤ 0) ∧
       40 ≤ p6 ∧ m6 ≤ 12 ∧ 35 ≤ p20 ∧ m20 ≤ 15)) ∧
    (PUT_ENTRY ⟨c, some bb, some rsi, some wr, some p6, some m6, some p20, some m20, ma⟩ = true ↔
      (bb ≤ 35 ∧ (1 ≤ rsi ∧ rsi ≤ 40) ∧ (-100 ≤ wr ∧ wr ≤ -80) ∧
       35 ≤ m6 ∧ p6 ≤ 15 ∧ 30 ≤ m20 ∧ p20 ≤ 15)) := by
  constructor <;>
    simp [CALL_ENTRY, PUT_ENTRY, oLE, oGE, oBetween, Bool.and_eq_true,
      decide_eq_true_eq, and_assoc]

/-- Claim C2: for every row with Close, MA8, +DI20 and −DI20 defined,
`CALL_EXIT` holds iff |+DI20 − −DI20| < 10 or Close < MA8, and `PUT_EXIT`
holds iff |+DI20 − −DI20| < 10 or Close > MA8; in particular for
Close=100, MA8=101, +DI20=50, −DI20=10 the call exit is true and the put
exit is false. -/
theorem C2_exit_rules :
    (∀ (bb rsi wr p6 m6 : Option ℚ) (c m p q : ℚ),
      (CALL_EXIT ⟨some c, bb, rsi, wr, p6, m6, some p, some q, some m⟩ = true ↔
        (|p - q| < 10 ∨ c < m)) ∧
      (PUT_EXIT ⟨some c, bb, rsi, wr, p6, m6, some p, some q, some m⟩ = true ↔
        (|p - q| < 10 ∨ m < c))) ∧
    CALL_EXIT ⟨some 100, none, none, none, none, none, some 50, some 10, some 101⟩ = true ∧
    PUT_EXIT ⟨some 100, none, none, none, none, none, some 50, some 10, some 101⟩ = false := by
  refine ⟨fun bb rsi wr p6 m6 c m p q => ?_, ?_, ?_⟩
  · constructor <;>
      simp [CALL_EXIT, PUT_EXIT, di_diff_eq, oLTc, oLT, oGT, decide_eq_true_eq]
  · norm_num [CALL_EXIT, di_diff, oSub, oAbs, oLTc, oLT]
  · norm_num [PUT_EXIT, di_diff, oSub, oAbs, oLTc, oGT]

/-- Claim C3: on no row, whatever the indicator values (defined or NaN),
are `CALL_ENTRY` and `PUT_ENTRY` simultaneously true: their RSI20
requirements [65,100] and [1,40] are disjoint. -/
theorem C3_entries_mutually_exclusive (r : SignalInput) :
    (CALL_ENTRY r && PUT_ENTRY r) = false := by
  cases hcall : CALL_ENTRY r with
  | false => simp
  | true =>
    cases hput : PUT_ENTRY r with
    | false => simp
    | true =>
      exfalso
      unfold CALL_ENTRY at hcall
      unfold PUT_ENTRY at hput
      rcases hr : r.RSI20 with _ | v
      · rw [hr] at hcall
        simp [oBetween] at hcall
      · rw [hr] at hcall hput
        simp [oBetween, oLE, oGE, Bool.and_eq_true, decide_eq_true_eq] at hcall hput
        have h1 : (65 : ℚ) ≤ v := by tauto
        have h2 : v ≤ (40 : ℚ) := by tauto
        linarith

/-- Claim C4: signal evaluation is total and NaN-safe: a NaN in any input of
one of the entry conjunctions makes that entry flag false, a NaN in +DI20 or
−DI20 makes the DI-difference comparison false, and a NaN in Close or MA8
makes the Close/MA8 comparisons false — no row ever raises. -/
theorem C4_nan_inputs (r : SignalInput) :
    ((r.BB60 = none ∨ r.RSI20 = none ∨ r.WILLR28 = none ∨ r.pDI6 = none ∨
      r.mDI6 = none ∨ r.pDI20 = none ∨ r.mDI20 = none) →
        CALL_ENTRY r = false ∧ PUT_ENTRY r = false) ∧
    ((r.pDI20 = none ∨ r.mDI20 = none) → oLTc (di_diff r) 10 = false) ∧
    ((r.Close = none ∨ r.MA8 = none) →
        oLT r.Close r.MA8 = false ∧ oGT r.Close r.MA8 = false) := by
  refine ⟨?_, ?_, ?_⟩
  · rintro (h | h | h | h | h | h | h) <;>
      simp [CALL_ENTRY, PUT_ENTRY, oLE, oGE, oBetween, h]
  · rintro (h | h)
    · simp [di_diff, oSub, oAbs, oLTc, h]
    · rcases hp : r.pDI20 with _ | a <;> simp [di_diff, oSub, oAbs, oLTc, h, hp]
  · rintro (h | h)
    · simp [oLT, oGT, h]
    · rcases hc : r.Close with _ | a <;> simp [oLT, oGT, h, hc]

/-- Witness for C4 at the all-NaN row. -/
theorem C4_nan_inputs_witness :
    CALL_ENTRY ⟨none, none, none, none, none, none, none, none, none⟩ = false ∧
    PUT_ENTRY ⟨none, none, none, none, none, none, none, none, none⟩ = false :=
  (C4_nan_inputs ⟨none, none, none, none, none, none, none, none, none⟩).1 (Or.inl rfl)

/-- Claim C9: on rows with Close, MA8, +DI20 and −DI20 defined, both exit
flags are false only when Close = MA8 and |+DI20 − −DI20| ≥ 10; when
Close ≠ MA8 at least one exit flag is true; when |+DI20 − −DI20| < 10 both
are true. -/
theorem C9_exit_flag_relationships (bb rsi wr p6 m6 : Option ℚ) (c m p q : ℚ) :
    ((CALL_EXIT ⟨some c, bb, rsi, wr, p6, m6, some p, some q, some m⟩ = false ∧
      PUT_EXIT ⟨some c, bb, rsi, wr, p6, m6, some p, some q, some m⟩ = false) →
        (c = m ∧ 10 ≤ |p - q|)) ∧
    (c ≠ m →
      (CALL_EXIT ⟨some c, bb, rsi, wr, p6, m6, some p, some q, some m⟩ = true ∨
       PUT_EXIT ⟨some c, bb, rsi, wr, p6, m6, some p, some q, some m⟩ = true)) ∧
    (|p - q| < 10 →
      (CALL_EXIT ⟨some c, bb, rsi, wr, p6, m6, some p, some q, some m⟩ = true ∧
       PUT_EXIT ⟨some c, bb, rsi, wr, p6, m6, some p, some q, some m⟩ = true)) := by
  have hc : CALL_EXIT ⟨some c, bb, rsi, wr, p6, m6, some p, some q, some m⟩ = true ↔
      (|p - q| < 10 ∨ c < m) := by
    simp [CALL_EXIT, di_diff_eq, oLTc, oLT, decide_eq_true_eq]
  have hp : PUT_EXIT ⟨some c, bb, rsi, wr, p6, m6, some p, some q, some m⟩ = true ↔
      (|p - q| < 10 ∨ m < c) := by
    simp [PUT_EXIT, di_diff_eq, oLTc, oGT, decide_eq_true_eq]
  refine ⟨?_, ?_, ?_⟩
  · rintro ⟨h1, h2⟩
    rw [Bool.eq_false_iff, ne_eq, hc] at h1
    rw [Bool.eq_false_iff, ne_eq, hp] at h2
    push_neg at h1 h2
    exact ⟨le_antisymm h2.2 h1.2, h1.1⟩
  · intro hne
    rcases lt_or_gt_of_ne hne with h | h
    · exact Or.inl (hc.mpr (Or.inr h))
    · exact Or.inr (hp.mpr (Or.inr h))
  · intro hd
    exact ⟨hc.mpr (Or.inl hd), hp.mpr (Or.inl hd)⟩

/-- Witness for C9: with +DI20 = 1, −DI20 = 0 the DI difference is below 10,
so both exit flags are true. -/
theorem C9_exit_flag_relationships_witness :
    CALL_EXIT ⟨some 5, none, none, none, none, none, some 1, some 0, some 5⟩ = true ∧
    PUT_EXIT ⟨some 5, none, none, none, none, none, some 1, some 0, some 5⟩ = true :=
  (C9_exit_flag_relationships none none none none none 5 5 1 0).2.2 (by norm_num)

theorem flatMap_singleton_map {α β : Type} (l : List α) (g : α → β) :
    (l.flatMap fun a => [g a]) = l.map g := by
  induction l with
  | nil => rfl
  | cons x xs ih => simp [List.flatMap_cons, ih]

/-- Claim C8: a symbol whose fetch failed (missing/empty data) or produced
fewer than MIN_BARS bars contributes no frame and no rows to the aggregated
table; a listed symbol with at least MIN_BARS bars is included with all its
rows. -/
theorem C8_min_bars_guard (fetch : String → Option (List Bar)) (stocks : List String)
    (s : String) :
    ((fetch s = none ∨ ∃ rows, fetch s = some rows ∧ rows.length < MIN_BARS) →
      (∀ rows, (s, rows) ∉ pipelineFrames fetch stocks) ∧
      (∀ b, (s, b) ∉ aggregatedRows fetch stocks)) ∧
    (∀ rows, s ∈ stocks → fetch s = some rows → MIN_BARS ≤ rows.length →
      (s, rows) ∈ pipelineFrames fetch stocks ∧
      ∀ b ∈ rows, (s, b) ∈ aggregatedRows fetch stocks) := by
  have hframe : ∀ rows : List Bar, (s, rows) ∈ pipelineFrames fetch stocks ↔
      (s ∈ stocks ∧ fetch s = some rows ∧ MIN_BARS ≤ rows.length) := by
    intro rows
    unfold pipelineFrames
    rw [List.mem_filterMap]
    constructor
    · rintro ⟨a, ha, hfa⟩
      rcases hfetch : fetch a with _ | raw
      · rw [hfetch] at hfa
        cases hfa
      · rw [hfetch] at hfa
        by_cases hl : MIN_BARS ≤ raw.length
        · simp only [hl, if_true, Option.some.injEq, Prod.mk.injEq] at hfa
          obtain ⟨rfl, rfl⟩ := hfa
          exact ⟨ha, hfetch, hl⟩
        · simp only [hl, if_false] at hfa
          cases hfa
    · rintro ⟨hs, hf, hl⟩
      refine ⟨s, hs, ?_⟩
      rw [hf]
      simp [hl]
  have haggr : ∀ b : Bar, (s, b) ∈ aggregatedRows fetch stocks ↔
      ∃ rows, (s, rows) ∈ pipelineFrames fetch stocks ∧ b ∈ rows := by
    intro b
    unfold aggregatedRows
    rw [List.mem_flatMap]
    constructor
    · rintro ⟨⟨f1, f2⟩, hf, hb⟩
      rw [List.mem_map] at hb
      obtain ⟨b', hb', heq⟩ := hb
      simp only [Prod.mk.injEq] at heq
      obtain ⟨rfl, rfl⟩ := heq
      exact ⟨f2, hf, hb'⟩
    · rintro ⟨rows, hmem, hb⟩
      exact ⟨(s, rows), hmem, List.mem_map.mpr ⟨b, hb, rfl⟩⟩
  constructor
  · intro hbad
    have hnone : ∀ rows : List Bar, (s, rows) ∉ pipelineFrames fetch stocks := by
      intro rows hmem
      rcases (hframe rows).mp hmem with ⟨_, hf, hl⟩
      rcases hbad with hn | ⟨rows0, hsome, hlen⟩
      · rw [hn] at hf
        cases hf
      · rw [hsome] at hf
        injection hf with hf
        subst hf
        omega
    refine ⟨hnone, ?_⟩
    intro b hmem
    rcases (haggr b).mp hmem with ⟨rows, hmemf, _⟩
    exact hnone rows hmemf
  · intro rows hs hf hl
    have hm := (hframe rows).mpr ⟨hs, hf, hl⟩
    exact ⟨hm, fun b hb => (haggr b).mpr ⟨rows, hm, hb⟩⟩

/-- Witness for C8: symbol "A" with exactly 160 bars is kept, symbol "B"
whose fetch fails contributes no frame. -/
theorem C8_min_bars_guard_witness :
    ("A", List.replicate 160 barW) ∈ pipelineFrames fetchW ["A", "B"] ∧
    ∀ rows, ("B", rows) ∉ pipelineFrames fetchW ["A", "B"] := by
  constructor
  · exact ((C8_min_bars_guard fetchW ["A", "B"] "A").2 (List.replicate 160 barW)
      (by simp) (by simp [fetchW]) (by simp [MIN_BARS])).1
  · exact fun rows =>
      ((C8_min_bars_guard fetchW ["A", "B"] "B").1 (Or.inl (by simp [fetchW]))).1 rows

/-- Counterexample to claim C5 as stated: in paper mode (auto-trade off)
`place_entry` still performs broker calls — with a cold cache its trace is
the spot-price lookup (`kite.ltp`) followed by the instrument download
(`kite.instruments`), both made before the auto-trade flag is checked. -/
theorem C5_counterexample :
    envPaper.autoTrade = false ∧
    (place_entry envPaper none "CALL").2.2 = [BrokerCall.ltp, BrokerCall.instruments] ∧
    (place_entry envPaper none "CALL").2.2 ≠ [] := by
  have htrace : (place_entry envPaper none "CALL").2.2 =
      [BrokerCall.ltp, BrokerCall.instruments] := by
    rw [place_entry_paper_trace envPaper none "CALL" rfl, get_atm_trace]
    rfl
  refine ⟨rfl, htrace, ?_⟩
  rw [htrace]
  simp

/-- Claim C5 amended: in paper mode `exit_position` makes no broker calls at
all, and `place_entry` places no order; but `place_entry` does call the
broker (the spot-price lookup, plus the instrument download when the cache
is cold) while resolving the symbol, so a paper-mode entry can still fail at
those calls. -/
theorem C5_paper_mode (env : KiteEnv) (cache : Option (List Instrument))
    (side sym : String) (qty : ℤ) (h : env.autoTrade = false) :
    exit_position env sym qty = [] ∧
    (∀ call ∈ (place_entry env cache side).2.2, isOrderCall call = false) ∧
    BrokerCall.ltp ∈ (place_entry env cache side).2.2 := by
  have htr : (place_entry env cache side).2.2 =
      BrokerCall.ltp :: (load_instruments env cache).2.2 := by
    rw [place_entry_paper_trace env cache side h, get_atm_trace]
  refine ⟨by simp [exit_position, h], ?_, ?_⟩
  · intro call hc
    rw [htr] at hc
    rcases load_instruments_trace env cache with hl | hl
    · rw [hl] at hc
      simp at hc
      subst hc
      rfl
    · rw [hl] at hc
      simp at hc
      rcases hc with rfl | rfl <;> rfl
  · rw [htr]
    exact List.mem_cons_self _ _

/-- Witness for C5 (amended) in the concrete paper-mode environment. -/
theorem C5_paper_mode_witness :
    exit_position envPaper "X" 50 = [] ∧
    (∀ call ∈ (place_entry envPaper none "CALL").2.2, isOrderCall call = false) ∧
    BrokerCall.ltp ∈ (place_entry envPaper none "CALL").2.2 :=
  C5_paper_mode envPaper none "CALL" "X" 50 rfl

/-- Claim C6: `auto_exit false` exits nothing and makes no broker calls;
`auto_exit true` exits exactly the open positions with non-zero quantity,
each with its absolute quantity, regardless of symbol or side; with
auto-trade on, each exit is a market sell of that absolute quantity. -/
theorem C6_auto_exit (env : KiteEnv) :
    auto_exit env false = ([], []) ∧
    (auto_exit env true).1 =
      (env.netPositions.filter fun p => p.quantity != 0).map
        (fun p => (p.tradingsymbol, |p.quantity|)) ∧
    (env.autoTrade = true →
      (auto_exit env true).2 =
        BrokerCall.positions ::
          (env.netPositions.filter fun p => p.quantity != 0).map
            (fun p => BrokerCall.placeOrder "SELL" p.tradingsymbol |p.quantity|)) := by
  refine ⟨rfl, ?_, ?_⟩
  · unfold auto_exit get_open_positions
    simp
  · intro h
    unfold auto_exit get_open_positions exit_position
    simp [h, flatMap_singleton_map]

/-- Witness for C6: two open positions on different symbols are both exited,
with a market sell each; a false signal exits nothing. -/
theorem C6_auto_exit_witness :
    auto_exit envTwo false = ([], []) ∧
    (auto_exit envTwo true).1 = [("AAA", 50), ("BBB", 25)] ∧
    (auto_exit envTwo true).2 = [BrokerCall.positions,
      BrokerCall.placeOrder "SELL" "AAA" 50, BrokerCall.placeOrder "SELL" "BBB" 25] := by
  have h := C6_auto_exit envTwo
  refine ⟨h.1, ?_, ?_⟩
  · rw [h.2.1]
    norm_num [envTwo]
  · rw [h.2.2 rfl]
    norm_num [envTwo]

/-- Counterexample to claim C7 as stated: resolution fails with the
"Option symbol not found" error although an instrument matching the resolved
(expiry, strike, type) triple does exist in the cached universe — the lookup
additionally requires name = "NIFTY", which that (BANKNIFTY) instrument
lacks. -/
theorem C7_counterexample :
    (get_atm_option_symbol envTriple none "CALL").1 =
      Except.error "Option symbol not found" ∧
    envTriple.nfoInstruments.any (fun i =>
      i.expiry == 5 && i.strike == 10500 && i.instrument_type == "CE") = true ∧
    atm_strike envTriple.spot = 10500 ∧
    (get_current_expiry envTriple none).1 = some 5 := by
  have hs : atm_strike envTriple.spot = 10500 := atm_strike_10523
  have hE : (niftyExpiries (load_instruments envTriple none).1).head? = some 5 := by rfl
  refine ⟨?_, by decide, hs, by rfl⟩
  rw [get_atm_error_iff envTriple none "CALL" 5 hE, hs]
  intro i hi
  simp [load_instruments, envTriple] at hi
  rcases hi with rfl | rfl <;> decide

/-- Claim C7 amended: strike resolution picks the multiple of 50 nearest the
spot (ties to even); the expiry is the earliest expiry among cached NIFTY
contracts; and, provided expiry resolution succeeds, the lookup fails with
the NotFound error iff no cached instrument matches the full
(name = "NIFTY", expiry, strike, option type) quadruple. -/
theorem C7_resolution (env : KiteEnv) (cache : Option (List Instrument)) (side : String)
    (e : Nat) (hE : (get_current_expiry env cache).1 = some e) :
    (∀ z : ℤ, |env.spot - (atm_strike env.spot : ℚ)| ≤ |env.spot - 50 * (z : ℚ)|) ∧
    (∃ i ∈ (load_instruments env cache).1, i.name = "NIFTY" ∧ i.expiry = e) ∧
    (∀ i ∈ (load_instruments env cache).1, i.name = "NIFTY" → e ≤ i.expiry) ∧
    ((get_atm_option_symbol env cache side).1 = Except.error "Option symbol not found" ↔
      ∀ i ∈ (load_instruments env cache).1,
        ¬(i.name = "NIFTY" ∧ i.expiry = e ∧ i.strike = atm_strike env.spot ∧
          i.instrument_type = optionType side)) := by
  have hE' : (niftyExpiries (load_instruments env cache).1).head? = some e := by
    unfold get_current_expiry at hE
    exact hE
  refine ⟨?_, (niftyExpiries_head _ e hE').1, (niftyExpiries_head _ e hE').2,
    get_atm_error_iff env cache side e hE'⟩
  intro z
  have h := pyRound_nearest (env.spot / 50) z
  unfold atm_strike
  have e1 : env.spot - ((pyRound (env.spot / 50) * 50 : ℤ) : ℚ) =
      50 * (env.spot / 50 - (pyRound (env.spot / 50) : ℚ)) := by
    push_cast
    ring
  have e2 : env.spot - 50 * (z : ℚ) = 50 * (env.spot / 50 - (z : ℚ)) := by
    ring
  rw [e1, e2, abs_mul, abs_mul]
  have h50 : |(50 : ℚ)| = 50 := by norm_num
  rw [h50]
  exact mul_le_mul_of_nonneg_left h (by norm_num)

/-- Witness for C7 (amended): in the concrete environment the resolved
expiry 5 bounds the expiry of the cached NIFTY contract. -/
theorem C7_resolution_witness :
    5 ≤ (Instrument.mk "NIFTY" 5 10000 "CE" "NIFTY10000CE").expiry :=
  (C7_resolution envTriple none "CALL" 5 rfl).2.2.1
    ⟨"NIFTY", 5, 10000, "CE", "NIFTY10000CE"⟩
    (by simp [load_instruments, envTriple]) rfl

/-- Claim C10: strike resolution rounds half to even: a spot exactly midway
between two adjacent multiples of 50 resolves to the multiple whose quotient
by 50 is even; concretely spot 10525 resolves to 10500, not 10550. -/
theorem C10_round_half_to_even :
    atm_strike 10525 = 10500 ∧ atm_strike 10525 ≠ 10550 ∧
    ∀ k : ℤ, atm_strike (50 * (k : ℚ) + 25) =
      if k % 2 = 0 then 50 * k else 50 * (k + 1) := by
  have hgen : ∀ k : ℤ, atm_strike (50 * (k : ℚ) + 25) =
      if k % 2 = 0 then 50 * k else 50 * (k + 1) := by
    intro k
    unfold atm_strike
    have harg : (50 * (k : ℚ) + 25) / 50 = (k : ℚ) + 1 / 2 := by ring
    rw [harg, pyRound_half_add]
    by_cases h : k % 2 = 0
    · rw [if_pos h, if_pos h]
      ring
    · rw [if_neg h, if_neg h]
      ring
  have h1 : atm_strike 10525 = 10500 := by
    have harg : (10525 : ℚ) = 50 * ((210 : ℤ) : ℚ) + 25 := by norm_num
    rw [harg, hgen 210]
    decide
  refine ⟨h1, ?_, hgen⟩
  rw [h1]
  decide

end Tbot

